import Mathlib

/-!
# crud: the `/health` and `/posts` handlers and the startup sequence of `main.go`

The program is one Go function, `main`, which reads its configuration, opens a
pgx connection pool, checks connectivity, registers two gin routes and starts the
HTTP server.  The embedding below follows `src/main.go` statement by statement.

The collaborators that live outside the repository (the process environment, the
pgx pool, the row cursor, the gin engine and context) are represented by the
values their calls return: a query is the pair `(rows, err)`, a cursor is the
list of outcomes of `rows.Scan` for the rows `rows.Next()` delivers together with
the final `rows.Err()`, `r.Run` is its outcome, and `c.JSON(code, obj)` is the
pair of its two arguments, which `Response.write` turns into the status and the
body sent to the client.
-/

namespace Crud

/-! ## Data model -/

/-- Go `time.Time` as stored in `Post.CreatedAt`, read through the methods its
JSON rendering calls: the calendar date and the clock in the location of the
value, and `Offset`, the seconds east of UTC of that location. -/
structure Time where
  Year : Int
  Month : Nat
  Day : Nat
  Hour : Nat
  Minute : Nat
  Second : Nat
  Nanosecond : Nat
  Offset : Int
  deriving DecidableEq, Repr

/-- The `Post` struct of `main.go` (lines 16-21).  `ID` is an `int64`; no
arithmetic is done on it, so it is kept as an integer. -/
structure Post where
  ID : Int
  Title : String
  Body : String
  CreatedAt : Time
  deriving DecidableEq, Repr

/-- A Go `error` value, observed through its `Error()` method only. -/
structure GoError where
  Error : String
  deriving DecidableEq, Repr

/-- A Go slice: either the nil slice or an allocated one with its elements. -/
inductive Slice (α : Type) where
  | nil : Slice α
  | mk (elems : List α) : Slice α
  deriving DecidableEq, Repr

/-- Go `make([]T, 0, n)`: an allocated slice of length zero. -/
def Slice.make {α : Type} : Slice α := Slice.mk []

/-- Go `append(s, x)` -/
def Slice.append {α : Type} : Slice α → α → Slice α
  | Slice.nil, x => Slice.mk [x]
  | Slice.mk xs, x => Slice.mk (xs ++ [x])

/-- The elements of a slice, the nil slice having none. -/
def Slice.toList {α : Type} : Slice α → List α
  | Slice.nil => []
  | Slice.mk xs => xs

/-- The values this program stores in a `gin.H` literal. -/
inductive Any where
  | bool (b : Bool) : Any
  | str (s : String) : Any
  deriving DecidableEq, Repr

/-- The `obj` argument of `c.JSON`: either a `gin.H` literal, whose members are
listed in the order of the source, or the `[]Post` slice. -/
inductive Obj where
  | H (members : List (String × Any)) : Obj
  | posts (s : Slice Post) : Obj
  deriving DecidableEq, Repr

/-- What a handler hands to `c.JSON(code, obj)`. -/
structure Response where
  code : Nat
  obj : Obj
  deriving DecidableEq, Repr

/-- Go `http.StatusOK` -/
def StatusOK : Nat := 200

/-- Go `http.StatusInternalServerError` -/
def StatusInternalServerError : Nat := 500

/-- The row cursor returned by a successful `pool.Query`: `scans` holds, for each
row that `rows.Next()` delivers, the outcome of `rows.Scan` on it (the decoded
`Post` or the scan error); `err` is `rows.Err()` once `rows.Next()` has returned
false (`none` for nil). -/
structure Rows where
  scans : List (Except GoError Post)
  err : Option GoError

/-! ## JSON rendering of a response body

`c.JSON` renders its argument with `encoding/json`.  A `Post` is rendered field by
field under its struct tags, its `CreatedAt` through `time.Time.MarshalJSON`
(Go 1.20 and later), which refuses the values RFC 3339 cannot express.  When the
rendering fails gin records the error and aborts: the status has been set and
no body is written. -/

/-- JSON values as produced for the bodies of this program. -/
inductive JSON where
  | null : JSON
  | bool (b : Bool) : JSON
  | num (n : Int) : JSON
  | str (s : String) : JSON
  | arr (items : List JSON) : JSON
  | obj (members : List (String × JSON)) : JSON

/-- Go `appendInt` of package `time`: the decimal digits of `x`, padded with
zeros to `width`, after a minus sign when `x` is negative. -/
def appendInt (x : Int) (width : Nat) : String :=
  let digits := Nat.toDigits 10 x.natAbs
  let padded := List.replicate (width - digits.length) '0' ++ digits
  String.mk (if x < 0 then '-' :: padded else padded)

/-- Go `appendNano` for the layout `.999999999`: nothing for zero nanoseconds,
otherwise a dot and the nine digits without their trailing zeros. -/
def appendNano (nanosec : Nat) : String :=
  if nanosec = 0 then ""
  else
    String.mk ('.' :: ((appendInt nanosec 9).data.reverse.dropWhile (fun c => c == '0')).reverse)

/-- The zone of a time in whole minutes, as `appendFormatRFC3339` computes it:
`offset / 60`, rounded toward zero. -/
def Time.zone (t : Time) : Int :=
  Int.tdiv t.Offset 60

/-- Go `Time.appendFormatRFC3339` with nanoseconds: the text
`2006-01-02T15:04:05.999999999Z07:00` of the value. -/
def Time.appendFormatRFC3339 (t : Time) : String :=
  appendInt t.Year 4 ++ "-" ++ appendInt t.Month 2 ++ "-" ++ appendInt t.Day 2 ++ "T" ++
  appendInt t.Hour 2 ++ ":" ++ appendInt t.Minute 2 ++ ":" ++ appendInt t.Second 2 ++
  appendNano t.Nanosecond ++
  (if t.Offset = 0 then "Z"
   else
     (if t.zone < 0 then "-" else "+") ++
       appendInt (t.zone.natAbs / 60) 2 ++ ":" ++ appendInt (t.zone.natAbs % 60) 2)

/-- The first check of `Time.appendStrictRFC3339`: the year is not exactly four
digits wide. -/
def Time.yearOutOfRange (t : Time) : Prop :=
  t.Year < 0 ∨ 9999 < t.Year

/-- The second check of `Time.appendStrictRFC3339`: the text does not end in `Z`
and its zone hour is 24 or more. -/
def Time.zoneHourOutOfRange (t : Time) : Prop :=
  t.Offset ≠ 0 ∧ 24 ≤ t.zone.natAbs / 60

instance (t : Time) : Decidable t.yearOutOfRange :=
  inferInstanceAs (Decidable (t.Year < 0 ∨ 9999 < t.Year))

instance (t : Time) : Decidable t.zoneHourOutOfRange :=
  inferInstanceAs (Decidable (t.Offset ≠ 0 ∧ 24 ≤ t.zone.natAbs / 60))

/-- Go `Time.appendStrictRFC3339`: the RFC 3339 text, or an error for a year
outside 0..9999 or a zone hour outside 0..23. -/
def Time.appendStrictRFC3339 (t : Time) : Except GoError String :=
  if t.yearOutOfRange then Except.error ⟨"year outside of range [0,9999]"⟩
  else if t.zoneHourOutOfRange then Except.error ⟨"timezone hour outside of range [0,23]"⟩
  else Except.ok t.appendFormatRFC3339

/-- Go `Time.MarshalJSON`: the text that goes between the quotes of the JSON
string, or the error of the strict rendering. -/
def Time.MarshalJSON (t : Time) : Except GoError String :=
  match t.appendStrictRFC3339 with
  | Except.error err => Except.error ⟨"Time.MarshalJSON: " ++ err.Error⟩
  | Except.ok text => Except.ok text

/-- Rendering of a `gin.H` member value. -/
def Any.toJSON : Any → JSON
  | Any.bool b => JSON.bool b
  | Any.str s => JSON.str s

/-- Rendering of a `Post` under its `json` struct tags; it fails when the
rendering of `CreatedAt` does. -/
def Post.toJSON (p : Post) : Except GoError JSON :=
  match p.CreatedAt.MarshalJSON with
  | Except.error err =>
      Except.error ⟨"json: error calling MarshalJSON for type time.Time: " ++ err.Error⟩
  | Except.ok text =>
      Except.ok (JSON.obj [("id", JSON.num p.ID), ("title", JSON.str p.Title),
                           ("body", JSON.str p.Body), ("created_at", JSON.str text)])

/-- Rendering of the elements of a `[]Post`, in order, stopping at the first
element that fails. -/
def marshalPosts : List Post → Except GoError (List JSON)
  | [] => Except.ok []
  | p :: rest =>
      match p.toJSON with
      | Except.error err => Except.error err
      | Except.ok item =>
          match marshalPosts rest with
          | Except.error err => Except.error err
          | Except.ok items => Except.ok (item :: items)

/-- Rendering of the `obj` argument of `c.JSON` by `json.Marshal`: a map becomes
an object, a nil slice becomes `null` and an allocated slice becomes the array
of its rendered elements. -/
def Obj.toJSON : Obj → Except GoError JSON
  | Obj.H members => Except.ok (JSON.obj (members.map (fun kv => (kv.1, kv.2.toJSON))))
  | Obj.posts Slice.nil => Except.ok JSON.null
  | Obj.posts (Slice.mk ps) =>
      match marshalPosts ps with
      | Except.error err => Except.error err
      | Except.ok items => Except.ok (JSON.arr items)

/-- The `Post` records carried by a response. -/
def Response.posts (r : Response) : List Post :=
  match r.obj with
  | Obj.H _ => []
  | Obj.posts s => s.toList

/-- Value of member `key` in a `gin.H` body, if the body is one and has it. -/
def Response.member (r : Response) (key : String) : Option Any :=
  match r.obj with
  | Obj.H members => (members.find? (fun kv => kv.1 == key)).map Prod.snd
  | Obj.posts _ => none

/-! ## The handlers (`main.go` lines 62-97) -/

/-- Handler of `GET /health` (lines 62-64): `c.JSON(http.StatusOK, gin.H{"ok": true})`. -/
def healthHandler : Response :=
  ⟨StatusOK, Obj.H [("ok", Any.bool true)]⟩

/-- The loop of lines 83-90: each delivered row is scanned; a scan error leaves
the loop with that error, otherwise the post is appended to `posts`. -/
def scanLoop : List (Except GoError Post) → Slice Post → Except GoError (Slice Post)
  | [], posts => Except.ok posts
  | Except.error err :: _, _ => Except.error err
  | Except.ok p :: rest, posts => scanLoop rest (posts.append p)

/-- Handler of `GET /posts` (lines 66-97), as a function of what `pool.Query` returns. -/
def postsHandler (query : Except GoError Rows) : Response :=
  match query with
  | Except.error err =>
      ⟨StatusInternalServerError,
        Obj.H [("error", Any.str "query error"), ("detail", Any.str err.Error)]⟩
  | Except.ok rows =>
      match scanLoop rows.scans Slice.make with
      | Except.error err =>
          ⟨StatusInternalServerError,
            Obj.H [("error", Any.str "scan error"), ("detail", Any.str err.Error)]⟩
      | Except.ok posts =>
          match rows.err with
          | some err =>
              ⟨StatusInternalServerError,
                Obj.H [("error", Any.str "rows error"), ("detail", Any.str err.Error)]⟩
          | none => ⟨StatusOK, Obj.posts posts⟩

/-- The routes registered on the gin engine (lines 62 and 66): the response of
the handler registered for `method` and `path`, `none` when the program
registers no handler for them.  `query` is what `pool.Query` returns to the
request. -/
def route (query : Except GoError Rows) (method path : String) : Option Response :=
  if method = "GET" ∧ path = "/health" then some healthHandler
  else if method = "GET" ∧ path = "/posts" then some (postsHandler query)
  else none

/-! ## The statement sent to the store (lines 70-75) -/

/-- The order of `ORDER BY id DESC`: the first row precedes or equals the second. -/
def idDesc (a b : Post) : Prop := b.ID ≤ a.ID

instance : DecidableRel idDesc := fun a b => inferInstanceAs (Decidable (b.ID ≤ a.ID))

instance : IsTotal Post idDesc := ⟨fun a b => by unfold idDesc; omega⟩

instance : IsTrans Post idDesc := ⟨fun a b c h1 h2 => by unfold idDesc at *; omega⟩

/-- The statement
`SELECT id, title, body, created_at FROM posts ORDER BY id DESC LIMIT 100`
evaluated on the content of the `posts` table. -/
def selectPosts (table : List Post) : List Post :=
  (table.insertionSort idDesc).take 100

/-- The cursor of a query on `table` in which every scan succeeds and the
iteration ends without error. -/
def Rows.ofTable (table : List Post) : Rows :=
  ⟨(selectPosts table).map Except.ok, none⟩

/-! ## Startup (`main.go` lines 25-58 and 99-104) -/

/-- The fields of `pgxpool.Config` that `main` reads or writes. -/
structure Config where
  ConnString : String
  MaxConns : Int
  MinConns : Int
  deriving DecidableEq, Repr

/-- A pool handle, as returned by `pgxpool.NewWithConfig`. -/
structure Pool where
  config : Config
  deriving DecidableEq, Repr

/-- What becomes of the call `r.Run(addr)` of line 100.  With `serving` the
listener on `addr` is open and the call keeps serving; with `failed` the call
returns an error other than `http.ErrServerClosed`, after opening the listener
(`listened`) or without having opened it; with `closed` the call returns
`http.ErrServerClosed` after having served. -/
inductive RunResult where
  | serving : RunResult
  | failed (listened : Bool) (err : GoError) : RunResult
  | closed : RunResult
  deriving DecidableEq, Repr

/-- What the surroundings answer to the calls `main` makes: `env` is the process
environment once `godotenv.Load()` has run, `parseConfig` is
`pgxpool.ParseConfig`, `newWithConfig` is `pgxpool.NewWithConfig`, `ping` is
`pool.Ping` under its three-second deadline (`none` for a nil error) and `run`
is `r.Run`.  `sched` is the scheduler's choice: the number of events of the
goroutine of lines 99-103 that precede the `log.Printf` of line 104. -/
structure World where
  env : String → Option String
  parseConfig : String → Except GoError Config
  newWithConfig : Config → Except GoError Pool
  ping : Pool → Option GoError
  run : String → RunResult
  sched : Nat

/-- Go `os.Getenv`: the value of the variable, the empty string when it is unset. -/
def World.Getenv (w : World) (key : String) : String :=
  (w.env key).getD ""

/-- What `main` does that is visible from outside the process. -/
inductive Event where
  | log (msg : String) : Event
  | exit (code : Nat) : Event
  | run (addr : String) : Event
  deriving DecidableEq, Repr

/-- Go `log.Fatal` and `log.Fatalf`: the message is logged, then `os.Exit(1)`. -/
def logFatal (msg : String) : List Event :=
  [Event.log msg, Event.exit 1]

/-- The goroutine of lines 99-103: `r.Run(addr)`, then `log.Fatalf` when it
returns an error other than `http.ErrServerClosed`. -/
def runServer (result : RunResult) (addr : String) : List Event :=
  match result with
  | RunResult.serving => [Event.run addr]
  | RunResult.failed listened err =>
      (if listened then [Event.run addr] else []) ++ logFatal ("Gin Run: " ++ err.Error)
  | RunResult.closed => [Event.run addr]

/-- The events of two goroutines in one order: the first `k` events of `server`,
then those of `mainG`, then the rest of `server`. -/
def interleave (k : Nat) (server mainG : List Event) : List Event :=
  server.take k ++ mainG ++ server.drop k

/-- Nothing happens after `os.Exit`: the events up to and including the first
exit. -/
def untilExit : List Event → List Event
  | [] => []
  | Event.exit code :: _ => [Event.exit code]
  | e :: rest => e :: untilExit rest

/-- The body of `main` up to the point where it waits for the interrupt signal,
no interrupt having arrived.  `Event.run addr` is gin listening on `addr`, opened
by `r.Run(addr)`, with the two routes registered. -/
def main (w : World) : List Event :=
  let dsn := w.Getenv "DATABASE_URL"
  if dsn = "" then
    logFatal "DATABASE_URL не задан (в .env или переменных окружения)"
  else
    let addr := if w.Getenv "ADDR" = "" then ":9005" else w.Getenv "ADDR"
    match w.parseConfig dsn with
    | Except.error err => logFatal ("pgxpool.ParseConfig: " ++ err.Error)
    | Except.ok cfg =>
        let cfg := { cfg with MaxConns := 5, MinConns := 0 }
        match w.newWithConfig cfg with
        | Except.error err => logFatal ("pgxpool.NewWithConfig: " ++ err.Error)
        | Except.ok pool =>
            match w.ping pool with
            | some err => logFatal ("Не удалось подключиться к БД: " ++ err.Error)
            | none =>
                Event.log "✅ Подключение к PostgreSQL установлено" ::
                  untilExit (interleave w.sched (runServer (w.run addr) addr)
                    [Event.log ("🚀 Сервер запущен на " ++ addr)])

/-- The addresses on which a run of `main` starts the HTTP server. -/
def listenAddrs : List Event → List String
  | [] => []
  | Event.run addr :: rest => addr :: listenAddrs rest
  | _ :: rest => listenAddrs rest

/-- The status with which a run of `main` leaves the process, if it does. -/
def exitStatus : List Event → Option Nat
  | [] => none
  | Event.exit code :: _ => some code
  | _ :: rest => exitStatus rest

/-! ## Sample inputs -/

/-- A world in which `DATABASE_URL` and `ADDR` have the given values, every
connection string but "not a url" parses, the pool opens, the ping ends with
`pingErr`, every address but ":99999" can be listened on and the goroutine of
`r.Run` is scheduled first. -/
def sampleWorld (dsn addr : Option String) (pingErr : Option GoError) : World where
  env := fun key =>
    if key = "DATABASE_URL" then dsn else if key = "ADDR" then addr else none
  parseConfig := fun s =>
    if s = "not a url" then Except.error ⟨"cannot parse connection string"⟩
    else Except.ok ⟨s, 4, 0⟩
  newWithConfig := fun cfg => Except.ok ⟨cfg⟩
  ping := fun _ => pingErr
  run := fun a =>
    if a = ":99999" then RunResult.failed false ⟨"listen tcp: address 99999: invalid port"⟩
    else RunResult.serving
  sched := 2

/-- No `DATABASE_URL` in the environment. -/
def worldUnset : World := sampleWorld none none none

/-- An empty `DATABASE_URL`. -/
def worldEmpty : World := sampleWorld (some "") none none

/-- A `DATABASE_URL` that `pgxpool.ParseConfig` rejects. -/
def worldMalformed : World := sampleWorld (some "not a url") none none

/-- A store that does not answer the startup ping. -/
def worldPingFails : World :=
  sampleWorld (some "postgres://db/app") none (some ⟨"context deadline exceeded"⟩)

/-- A successful startup with `ADDR` set to ":8080". -/
def worldUp : World := sampleWorld (some "postgres://db/app") (some ":8080") none

/-- A successful startup without `ADDR`. -/
def worldUpDefault : World := sampleWorld (some "postgres://db/app") none none

/-- A successful startup with an empty `ADDR`. -/
def worldUpEmptyAddr : World := sampleWorld (some "postgres://db/app") (some "") none

/-- A startup that reaches `r.Run` with an `ADDR` that cannot be listened on. -/
def worldBadAddr : World := sampleWorld (some "postgres://db/app") (some ":99999") none

/-- The world `worldUp` with the `log.Printf` of line 104 scheduled before the
goroutine of `r.Run`. -/
def worldUpMainFirst : World := { worldUp with sched := 0 }

/-- A cursor whose third row fails to scan after two rows that scan, with a
second failing row behind it. -/
def sampleFailingRows : Rows :=
  ⟨[Except.ok ⟨2, "b", "", ⟨2023, 11, 14, 22, 13, 20, 0, 0⟩⟩,
    Except.ok ⟨1, "a", "", ⟨2023, 11, 14, 22, 13, 19, 0, 0⟩⟩,
    Except.error ⟨"cannot scan NULL into *string"⟩, Except.error ⟨"later"⟩], none⟩

/-! ## Lemmas on the scan loop -/

theorem scanLoop_all_ok (ps : List Post) (acc : List Post) :
    scanLoop (ps.map Except.ok) (Slice.mk acc) = Except.ok (Slice.mk (acc ++ ps)) := by
  induction ps generalizing acc with
  | nil => simp [scanLoop]
  | cons p rest ih => simp [scanLoop, Slice.append, ih]

theorem scanLoop_first_error (pre : List Post) (err : GoError)
    (rest : List (Except GoError Post)) (acc : List Post) :
    scanLoop (pre.map Except.ok ++ Except.error err :: rest) (Slice.mk acc)
      = Except.error err := by
  induction pre generalizing acc with
  | nil => simp [scanLoop]
  | cons p more ih => simp [scanLoop, Slice.append, ih]

theorem exists_first_error (scans : List (Except GoError Post))
    (h : ∃ err, Except.error err ∈ scans) :
    ∃ (pre : List Post) (err : GoError) (rest : List (Except GoError Post)),
      scans = pre.map Except.ok ++ Except.error err :: rest := by
  induction scans with
  | nil => simp at h
  | cons x xs ih =>
      cases x with
      | error e => exact ⟨[], e, xs, by simp⟩
      | ok p =>
          have h2 : ∃ err, Except.error err ∈ xs := by
            obtain ⟨err, he⟩ := h
            simp at he
            exact ⟨err, he⟩
          obtain ⟨pre, err, rest, hxs⟩ := ih h2
          exact ⟨p :: pre, err, rest, by simp [hxs]⟩

/-! ## Lemmas on the statement -/

theorem marshalJSON_error_of_year (t : Time) (hy : t.yearOutOfRange) :
    t.MarshalJSON
      = Except.error ⟨"Time.MarshalJSON: year outside of range [0,9999]"⟩ := by
  simp [Time.MarshalJSON, Time.appendStrictRFC3339, hy]

theorem format_utc :
    (⟨2023, 11, 14, 22, 13, 20, 0, 0⟩ : Time).appendFormatRFC3339
      = "2023-11-14T22:13:20Z" := by decide

theorem format_nanos_east :
    (⟨2024, 2, 29, 23, 59, 59, 120000000, 19800⟩ : Time).appendFormatRFC3339
      = "2024-02-29T23:59:59.12+05:30" := by decide

theorem format_west :
    (⟨987, 1, 2, 3, 4, 5, 1, -12600⟩ : Time).appendFormatRFC3339
      = "0987-01-02T03:04:05.000000001-03:30" := by decide

/-! ## Lemmas on the startup -/

theorem main_bad_addr :
    main worldBadAddr
      = [Event.log "✅ Подключение к PostgreSQL установлено",
         Event.log "Gin Run: listen tcp: address 99999: invalid port",
         Event.exit 1] ∧
    listenAddrs (main worldBadAddr) = [] ∧ exitStatus (main worldBadAddr) = some 1 := by
  decide

theorem main_up_main_first :
    main worldUpMainFirst
      = [Event.log "✅ Подключение к PostgreSQL установлено",
         Event.log "🚀 Сервер запущен на :8080",
         Event.run ":8080"] := by
  decide

theorem main_reaches_run (w : World) (cfg : Config) (pool : Pool)
    (hdsn : w.Getenv "DATABASE_URL" ≠ "")
    (hparse : w.parseConfig (w.Getenv "DATABASE_URL") = Except.ok cfg)
    (hpool : w.newWithConfig { cfg with MaxConns := 5, MinConns := 0 } = Except.ok pool)
    (hping : w.ping pool = none) :
    main w = Event.log "✅ Подключение к PostgreSQL установлено" ::
      untilExit (interleave w.sched
        (runServer (w.run (if w.Getenv "ADDR" = "" then ":9005" else w.Getenv "ADDR"))
          (if w.Getenv "ADDR" = "" then ":9005" else w.Getenv "ADDR"))
        [Event.log ("🚀 Сервер запущен на " ++
          (if w.Getenv "ADDR" = "" then ":9005" else w.Getenv "ADDR"))]) := by
  simp [main, hdsn, hparse, hpool, hping]

theorem getenv_addr (w : World) :
    (if w.Getenv "ADDR" = "" then ":9005" else w.Getenv "ADDR")
      = (match w.env "ADDR" with
         | none => ":9005"
         | some addr => if addr = "" then ":9005" else addr) := by
  cases henv : w.env "ADDR" with
  | none => simp [World.Getenv, henv]
  | some addr => simp [World.Getenv, henv]

theorem serving_trace (k : Nat) (addr msg : String) :
    listenAddrs (untilExit (interleave k (runServer RunResult.serving addr) [Event.log msg]))
      = [addr] ∧
    exitStatus (untilExit (interleave k (runServer RunResult.serving addr) [Event.log msg]))
      = none := by
  cases k with
  | zero => simp [interleave, runServer, untilExit, listenAddrs, exitStatus]
  | succ n => simp [interleave, runServer, untilExit, listenAddrs, exitStatus]

theorem failed_trace (k : Nat) (addr msg : String) (err : GoError) :
    listenAddrs (untilExit (interleave k (runServer (RunResult.failed false err) addr)
      [Event.log msg])) = [] ∧
    exitStatus (untilExit (interleave k (runServer (RunResult.failed false err) addr)
      [Event.log msg])) = some 1 := by
  rcases k with _ | _ | _ | n <;>
    simp [interleave, runServer, logFatal, untilExit, listenAddrs, exitStatus]

/-! ## The `/posts` handler -/

/-- C2: when the query fails with `err`, `/posts` answers 500 with the body
`{"error": "query error", "detail": err.Error()}` and carries no post. -/
theorem posts_query_error (err : GoError) :
    postsHandler (Except.error err)
      = ⟨500, Obj.H [("error", Any.str "query error"), ("detail", Any.str err.Error)]⟩ ∧
    (postsHandler (Except.error err)).obj.toJSON
      = Except.ok (JSON.obj [("error", JSON.str "query error"),
          ("detail", JSON.str err.Error)]) ∧
    (postsHandler (Except.error err)).posts = [] := by
  refine ⟨rfl, rfl, rfl⟩

/-- C3: when some delivered row fails to scan, the rows split as rows that scan,
then the first failing row with error `err`, then the rest; `/posts` answers 500
with the body `{"error": "scan error", "detail": err.Error()}` and carries none
of the posts scanned before the failure. -/
theorem posts_scan_error (rows : Rows) (h : ∃ err, Except.error err ∈ rows.scans) :
    ∃ (pre : List Post) (err : GoError) (rest : List (Except GoError Post)),
      rows.scans = pre.map Except.ok ++ Except.error err :: rest ∧
      postsHandler (Except.ok rows)
        = ⟨500, Obj.H [("error", Any.str "scan error"), ("detail", Any.str err.Error)]⟩ ∧
      (postsHandler (Except.ok rows)).obj.toJSON
        = Except.ok (JSON.obj [("error", JSON.str "scan error"),
            ("detail", JSON.str err.Error)]) ∧
      (postsHandler (Except.ok rows)).posts = [] := by
  obtain ⟨pre, err, rest, hsplit⟩ := exists_first_error rows.scans h
  have hloop := scanLoop_first_error pre err rest []
  have hresp : postsHandler (Except.ok rows)
      = ⟨500, Obj.H [("error", Any.str "scan error"), ("detail", Any.str err.Error)]⟩ := by
    simp [postsHandler, hsplit, Slice.make, hloop, StatusInternalServerError]
  refine ⟨pre, err, rest, hsplit, hresp, ?_, ?_⟩
  · rw [hresp]; rfl
  · rw [hresp]; rfl

/-- C3 on a cursor whose third row fails after two rows that scan, with a second
failing row behind it. -/
theorem posts_scan_error_witness :
    (∃ err, Except.error err ∈ sampleFailingRows.scans) ∧
    ∃ (pre : List Post) (err : GoError) (rest : List (Except GoError Post)),
      sampleFailingRows.scans = pre.map Except.ok ++ Except.error err :: rest ∧
      postsHandler (Except.ok sampleFailingRows)
        = ⟨500, Obj.H [("error", Any.str "scan error"), ("detail", Any.str err.Error)]⟩ ∧
      (postsHandler (Except.ok sampleFailingRows)).obj.toJSON
        = Except.ok (JSON.obj [("error", JSON.str "scan error"),
            ("detail", JSON.str err.Error)]) ∧
      (postsHandler (Except.ok sampleFailingRows)).posts = [] :=
  ⟨⟨⟨"later"⟩, by simp [sampleFailingRows]⟩,
   posts_scan_error sampleFailingRows ⟨⟨"later"⟩, by simp [sampleFailingRows]⟩⟩

/-- C4: when every delivered row scans and the iteration ends with error `err`,
`/posts` answers 500 with the body `{"error": "rows error", "detail":
err.Error()}` and the posts collected so far are not in the response. -/
theorem posts_rows_error (ps : List Post) (err : GoError) :
    postsHandler (Except.ok ⟨ps.map Except.ok, some err⟩)
      = ⟨500, Obj.H [("error", Any.str "rows error"), ("detail", Any.str err.Error)]⟩ ∧
    (postsHandler (Except.ok ⟨ps.map Except.ok, some err⟩)).obj.toJSON
      = Except.ok (JSON.obj [("error", JSON.str "rows error"),
          ("detail", JSON.str err.Error)]) ∧
    (postsHandler (Except.ok ⟨ps.map Except.ok, some err⟩)).posts = [] := by
  have hloop := scanLoop_all_ok ps []
  have hresp : postsHandler (Except.ok ⟨ps.map Except.ok, some err⟩)
      = ⟨500, Obj.H [("error", Any.str "rows error"), ("detail", Any.str err.Error)]⟩ := by
    simp [postsHandler, Slice.make, hloop, StatusInternalServerError]
  refine ⟨hresp, ?_, ?_⟩
  · rw [hresp]; rfl
  · rw [hresp]; rfl

/-- C6: on an empty table the statement returns no row, and when the query
succeeds with no row and no iteration error `/posts` answers 200 with an
allocated empty slice, rendered as the array `[]` and not as `null`. -/
theorem posts_empty_store :
    selectPosts [] = [] ∧
    Rows.ofTable [] = ⟨[], none⟩ ∧
    postsHandler (Except.ok ⟨[], none⟩) = ⟨200, Obj.posts (Slice.mk [])⟩ ∧
    (postsHandler (Except.ok ⟨[], none⟩)).obj ≠ Obj.posts Slice.nil ∧
    (postsHandler (Except.ok ⟨[], none⟩)).obj.toJSON = Except.ok (JSON.arr []) ∧
    (postsHandler (Except.ok ⟨[], none⟩)).obj.toJSON ≠ Except.ok JSON.null := by
  refine ⟨rfl, rfl, rfl, by decide, rfl, ?_⟩
  intro h
  cases h

/-- C9: when the query fails with an error that carries a message, as the errors
of the pgx pool do, `/posts` answers 500 with `error` equal to "query error" and
a `detail` that is that message, a non-empty string. -/
theorem posts_query_error_detail (err : GoError) (hmsg : err.Error ≠ "") :
    (postsHandler (Except.error err)).code = 500 ∧
    (postsHandler (Except.error err)).member "error" = some (Any.str "query error") ∧
    (postsHandler (Except.error err)).member "detail" = some (Any.str err.Error) ∧
    (∃ s, (postsHandler (Except.error err)).member "detail" = some (Any.str s) ∧ s ≠ "") := by
  have hdetail : (postsHandler (Except.error err)).member "detail"
      = some (Any.str err.Error) := by
    simp [postsHandler, Response.member]
  refine ⟨rfl, ?_, hdetail, ⟨err.Error, hdetail, hmsg⟩⟩
  simp [postsHandler, Response.member]

/-- C9 for a query that fails because the store cannot be reached. -/
theorem posts_query_error_detail_witness :
    (⟨"failed to connect to host=db user=app database=app: dial error"⟩ : GoError).Error
      ≠ "" ∧
    (postsHandler (Except.error
      ⟨"failed to connect to host=db user=app database=app: dial error"⟩)).code = 500 ∧
    (postsHandler (Except.error
      ⟨"failed to connect to host=db user=app database=app: dial error"⟩)).member "error"
      = some (Any.str "query error") ∧
    (postsHandler (Except.error
      ⟨"failed to connect to host=db user=app database=app: dial error"⟩)).member "detail"
      = some (Any.str "failed to connect to host=db user=app database=app: dial error") ∧
    (∃ s, (postsHandler (Except.error
      ⟨"failed to connect to host=db user=app database=app: dial error"⟩)).member "detail"
        = some (Any.str s) ∧ s ≠ "") :=
  ⟨by decide,
   posts_query_error_detail
     ⟨"failed to connect to host=db user=app database=app: dial error"⟩ (by decide)⟩

/-! ## The `/health` handler -/

/-- C7: whatever the query on the store would return, `GET /health` answers 200
with the body `{"ok": true}`; the answer is the same for every state of the
store. -/
theorem health_ok (query : Except GoError Rows) :
    route query "GET" "/health" = some ⟨200, Obj.H [("ok", Any.bool true)]⟩ ∧
    healthHandler.obj.toJSON = Except.ok (JSON.obj [("ok", JSON.bool true)]) ∧
    (∀ other : Except GoError Rows,
      route other "GET" "/health" = route query "GET" "/health") := by
  refine ⟨?_, rfl, fun other => ?_⟩
  · simp [route, healthHandler, StatusOK]
  · simp [route]

/-! ## Startup -/

/-- C8: when `DATABASE_URL` is unset or empty, or `pgxpool.ParseConfig` rejects
the connection string, or the startup ping fails, `main` logs one message and
leaves with status 1 without ever starting the HTTP server. -/
theorem startup_failure_is_fatal (w : World)
    (h : w.env "DATABASE_URL" = none ∨ w.env "DATABASE_URL" = some "" ∨
      (∃ err, w.parseConfig (w.Getenv "DATABASE_URL") = Except.error err) ∨
      (∃ cfg pool err, w.parseConfig (w.Getenv "DATABASE_URL") = Except.ok cfg ∧
        w.newWithConfig { cfg with MaxConns := 5, MinConns := 0 } = Except.ok pool ∧
        w.ping pool = some err)) :
    (∃ msg, main w = [Event.log msg, Event.exit 1]) ∧
    (∃ code, exitStatus (main w) = some code ∧ code ≠ 0) ∧
    listenAddrs (main w) = [] ∧
    (∀ addr, Event.run addr ∉ main w) := by
  have hfatal : ∃ msg, main w = [Event.log msg, Event.exit 1] := by
    by_cases hdsn : w.Getenv "DATABASE_URL" = ""
    · exact ⟨"DATABASE_URL не задан (в .env или переменных окружения)",
        by simp [main, hdsn, logFatal]⟩
    · rcases h with h | h | ⟨err, h⟩ | ⟨cfg, pool, err, h1, h2, h3⟩
      · exact absurd (by simp [World.Getenv, h]) hdsn
      · exact absurd (by simp [World.Getenv, h]) hdsn
      · exact ⟨"pgxpool.ParseConfig: " ++ err.Error, by simp [main, hdsn, h, logFatal]⟩
      · exact ⟨"Не удалось подключиться к БД: " ++ err.Error,
          by simp [main, hdsn, h1, h2, h3, logFatal]⟩
  obtain ⟨msg, hmain⟩ := hfatal
  rw [hmain]
  refine ⟨⟨msg, rfl⟩, ⟨1, rfl, by decide⟩, rfl, ?_⟩
  intro addr hmem
  simp at hmem

/-- C8 in four worlds: `DATABASE_URL` unset, `DATABASE_URL` empty, a connection
string that does not parse, and a ping that times out. -/
theorem startup_failure_is_fatal_witness :
    (worldUnset.env "DATABASE_URL" = none ∧
      main worldUnset
        = [Event.log "DATABASE_URL не задан (в .env или переменных окружения)",
           Event.exit 1] ∧
      listenAddrs (main worldUnset) = []) ∧
    (worldEmpty.env "DATABASE_URL" = some "" ∧
      (∃ code, exitStatus (main worldEmpty) = some code ∧ code ≠ 0) ∧
      listenAddrs (main worldEmpty) = []) ∧
    ((∃ err, worldMalformed.parseConfig (worldMalformed.Getenv "DATABASE_URL")
        = Except.error err) ∧
      (∃ code, exitStatus (main worldMalformed) = some code ∧ code ≠ 0) ∧
      listenAddrs (main worldMalformed) = []) ∧
    ((∃ cfg pool err,
        worldPingFails.parseConfig (worldPingFails.Getenv "DATABASE_URL") = Except.ok cfg ∧
        worldPingFails.newWithConfig { cfg with MaxConns := 5, MinConns := 0 }
          = Except.ok pool ∧
        worldPingFails.ping pool = some err) ∧
      (∃ code, exitStatus (main worldPingFails) = some code ∧ code ≠ 0) ∧
      listenAddrs (main worldPingFails) = []) :=
  ⟨⟨rfl, by decide, (startup_failure_is_fatal worldUnset (Or.inl rfl)).2.2.1⟩,
   ⟨rfl, (startup_failure_is_fatal worldEmpty (Or.inr (Or.inl rfl))).2.1,
    (startup_failure_is_fatal worldEmpty (Or.inr (Or.inl rfl))).2.2.1⟩,
   ⟨⟨_, rfl⟩,
    (startup_failure_is_fatal worldMalformed (Or.inr (Or.inr (Or.inl ⟨_, rfl⟩)))).2.1,
    (startup_failure_is_fatal worldMalformed (Or.inr (Or.inr (Or.inl ⟨_, rfl⟩)))).2.2.1⟩,
   ⟨⟨_, _, _, rfl, rfl, rfl⟩,
    (startup_failure_is_fatal worldPingFails
      (Or.inr (Or.inr (Or.inr ⟨_, _, _, rfl, rfl, rfl⟩)))).2.1,
    (startup_failure_is_fatal worldPingFails
      (Or.inr (Or.inr (Or.inr ⟨_, _, _, rfl, rfl, rfl⟩)))).2.2.1⟩⟩

/-- C10: when startup succeeds (the connection string parses, the pool opens,
the ping answers and `r.Run` serves on the address it is given), `main` opens
exactly one listener, on the value of `ADDR` when that is set and non-empty and
on ":9005" when it is unset or empty, and does not exit, however the goroutine
of `r.Run` is scheduled. -/
theorem listen_address (w : World) (cfg : Config) (pool : Pool)
    (hdsn : w.Getenv "DATABASE_URL" ≠ "")
    (hparse : w.parseConfig (w.Getenv "DATABASE_URL") = Except.ok cfg)
    (hpool : w.newWithConfig { cfg with MaxConns := 5, MinConns := 0 } = Except.ok pool)
    (hping : w.ping pool = none)
    (hrun : w.run (match w.env "ADDR" with
                   | none => ":9005"
                   | some addr => if addr = "" then ":9005" else addr)
              = RunResult.serving) :
    listenAddrs (main w) =
      [match w.env "ADDR" with
       | none => ":9005"
       | some addr => if addr = "" then ":9005" else addr] ∧
    exitStatus (main w) = none := by
  rw [main_reaches_run w cfg pool hdsn hparse hpool hping, getenv_addr w, hrun]
  have h := serving_trace w.sched
    (match w.env "ADDR" with
     | none => ":9005"
     | some addr => if addr = "" then ":9005" else addr)
    ("🚀 Сервер запущен на " ++
      (match w.env "ADDR" with
       | none => ":9005"
       | some addr => if addr = "" then ":9005" else addr))
  exact ⟨by simpa [listenAddrs] using h.1, by simpa [exitStatus] using h.2⟩

/-- C10 in three worlds where startup succeeds: `ADDR` set to ":8080", `ADDR`
unset, and `ADDR` empty. -/
theorem listen_address_witness :
    (worldUp.Getenv "DATABASE_URL" ≠ "" ∧ worldUp.env "ADDR" = some ":8080" ∧
      worldUp.run ":8080" = RunResult.serving ∧
      listenAddrs (main worldUp) = [":8080"] ∧ exitStatus (main worldUp) = none) ∧
    (worldUpDefault.env "ADDR" = none ∧ worldUpDefault.run ":9005" = RunResult.serving ∧
      listenAddrs (main worldUpDefault) = [":9005"]) ∧
    (worldUpEmptyAddr.env "ADDR" = some "" ∧
      worldUpEmptyAddr.run ":9005" = RunResult.serving ∧
      listenAddrs (main worldUpEmptyAddr) = [":9005"]) :=
  ⟨⟨by decide, rfl, rfl,
    listen_address worldUp ⟨"postgres://db/app", 4, 0⟩ ⟨⟨"postgres://db/app", 5, 0⟩⟩
      (by decide) rfl rfl rfl rfl⟩,
   ⟨rfl, rfl, (listen_address worldUpDefault ⟨"postgres://db/app", 4, 0⟩
      ⟨⟨"postgres://db/app", 5, 0⟩⟩ (by decide) rfl rfl rfl rfl).1⟩,
   ⟨rfl, rfl, (listen_address worldUpEmptyAddr ⟨"postgres://db/app", 4, 0⟩
      ⟨⟨"postgres://db/app", 5, 0⟩⟩ (by decide) rfl rfl rfl rfl).1⟩⟩

end Crud
